import Mathlib

/-!
Verification of the pyRio event-index engine (`src/stat_file_parser.py`,
`src/lookup.py`) against its natural-language specification.

The Python classes are shallowly embedded: the per-event record and its
optional nested sub-records become structures with `Option` fields, Python
dictionaries become `PyDict` (an explicit key set plus a value function, so
that indexing a missing key raises `KeyError` exactly as in Python), and
every fallible operation returns `Except PyError`.  `EventSearch.__init__`
becomes `buildEventSearch`, a left fold of a per-event `step` over the
event list; the query methods become functions of the built state.

One cross-cutting fact of the source shapes the development:
`StatObj.characterName` resolves a roster slot by calling
`Lookup.get_character(CHARID, output_format=...)` on the class `Lookup`
itself (stat_file_parser.py lines 217 and 220).  `get_character` is an
instance method (`def get_character(self, search_term, ...)`, lookup.py
line 457) and the module's `lookup_instance = Lookup()` is commented out,
so the CharID argument binds to `self`, the required `search_term` stays
unfilled, and every call raises TypeError.  The event loop of
`EventSearch.__init__` resolves the batter of the current event through
this path on its first iteration (line 789), so the constructor completes
exactly on games whose event list is empty.
-/

namespace PyRio

/-- Python exceptions that the embedded code can raise.  `ValueError` keeps
its message because the spec's failure semantics name the offending value
and the accepted domain. -/
inductive PyError where
  | keyError
  | valueError (msg : String)
  | typeError
  | attributeError
  | exceptionError
deriving DecidableEq

instance {ε α : Type} [DecidableEq ε] [DecidableEq α] : DecidableEq (Except ε α) := fun a b =>
  match a, b with
  | .ok x, .ok y =>
      if h : x = y then isTrue (by rw [h]) else isFalse (by simp [h])
  | .error e, .error f =>
      if h : e = f then isTrue (by rw [h]) else isFalse (by simp [h])
  | .ok _, .error _ => isFalse (by simp)
  | .error _, .ok _ => isFalse (by simp)

/-- Python dict: the set of present keys together with the value assignment.
Indexing a key outside `keys` raises `KeyError`. -/
structure PyDict (α β : Type) where
  keys : Finset α
  val : α → β

/-- Python `d[k]` (may raise KeyError). -/
def PyDict.get {α β : Type} [DecidableEq α] (d : PyDict α β) (k : α) : Except PyError β :=
  if k ∈ d.keys then .ok (d.val k) else .error .keyError

/-- Python `d[k] = b` (inserts or overwrites). -/
def PyDict.setVal {α β : Type} [DecidableEq α] (d : PyDict α β) (k : α) (b : β) : PyDict α β :=
  ⟨insert k d.keys, fun a => if a = k then b else d.val a⟩

/-- Python `d[k].add e` on a dict of sets: KeyError when `k` is absent. -/
def PyDict.add {α : Type} [DecidableEq α] (d : PyDict α (Finset Nat)) (k : α) (e : Nat) :
    Except PyError (PyDict α (Finset Nat)) :=
  if k ∈ d.keys then .ok ⟨d.keys, fun a => if a = k then insert e (d.val k) else d.val a⟩
  else .error .keyError

/-- Dict `d[k].add e` guarded by `try ... except KeyError: pass` — an absent
key leaves the dict unchanged (the tolerated-skip path). -/
def PyDict.addTolerant {α : Type} [DecidableEq α] (d : PyDict α (Finset Nat)) (k : α) (e : Nat) :
    PyDict α (Finset Nat) :=
  if k ∈ d.keys then ⟨d.keys, fun a => if a = k then insert e (d.val k) else d.val a⟩ else d

/-- Python `if k not in d: d[k] = set()` followed by `d[k].add e` (the
banded-position dicts, which create buckets on demand). -/
def PyDict.addCreating {α : Type} [DecidableEq α] (d : PyDict α (Finset Nat)) (k : α) (e : Nat) :
    PyDict α (Finset Nat) :=
  let d := if k ∈ d.keys then d else d.setVal k ∅
  ⟨d.keys, fun a => if a = k then insert e (d.val a) else d.val a⟩

/-- Python `max(d)` over an int-keyed dict: the maximum key, ValueError on an
empty dict. -/
def PyDict.maxKey {β : Type} (d : PyDict Int β) : Except PyError Int :=
  if h : d.keys = ∅ then .error (.valueError "max() arg is an empty sequence")
  else .ok (d.keys.max' (Finset.nonempty_of_ne_empty h))

/-- Preseeded dict `{k: set() for k in ks}`. -/
def PyDict.ofKeys {α : Type} (ks : Finset α) : PyDict α (Finset Nat) :=
  ⟨ks, fun _ => ∅⟩

/-- Python `range(a, b)` over integers. -/
def intRange (a b : Int) : List Int :=
  (List.range (b - a).toNat).map fun k => a + k

/-- Banker's rounding of a rational to the nearest integer (Python `round`). -/
def roundHalfToEven (q : Rat) : Int :=
  let f := Int.fdiv q.num q.den
  let frac := q - f
  if frac < 1/2 then f
  else if 1/2 < frac then f + 1
  else if f % 2 = 0 then f else f + 1

/-- Python `round(x, 2)`: the two-decimal banding used by the ball-position
axes. -/
def round2 (q : Rat) : Rat := (roundHalfToEven (q * 100) : Rat) / 100

/-! ### The lookup tables of `src/lookup.py` used by the engine -/

/-- LookupDicts.FINAL_RESULT values (the outcome-of-at-bat domain). -/
def finalResultValues : List String :=
  ["None", "Strikeout", "Walk (BB)", "Walk (HBP)", "Out", "Caught", "Caught line-drive",
   "Single", "Double", "Triple", "HR", "Error - Input", "Error - Chem", "Bunt", "SacFly",
   "Ground ball double Play", "Foul catch"]

/-- LookupDicts.POSITION values (fielder positions, including the None entry). -/
def positionValues : List String :=
  ["P", "C", "1B", "2B", "3B", "SS", "LF", "CF", "RF", "Inv", "None"]

/-- LookupDicts.PITCH_TYPE values. -/
def pitchTypeValues : List String := ["Curve", "Charge", "ChangeUp"]

/-- LookupDicts.CHARGE_TYPE values. -/
def chargeTypeValues : List String := ["N/A", "Slider", "Perfect"]

/-- LookupDicts.TYPE_OF_SWING values. -/
def typeOfSwingValues : List String := ["None", "Slap", "Charge", "Star", "Bunt"]

/-- LookupDicts.CONTACT_TYPE values. -/
def contactTypeValues : List String :=
  ["Miss", "Sour - Left", "Nice - Left", "Perfect", "Nice - Right", "Sour - Right"]

/-- LookupDicts.INPUT_DIRECTION values. -/
def inputDirectionValues : List String :=
  ["", "Left", "Right", "Left+Right", "Down", "Left+Down", "Right+Down",
   "Left+Right+Down", "Up", "Left+Up", "Right+Up", "Left+Right+Up",
   "Left+Down+Up", "Right+Down+Up", "Left+Right+Down+Up"]

/-! ### Data model: one decoded event with its optional nested sub-records -/

/-- Runner sub-record of an event (the keys Runner 1B / Runner 2B / Runner 3B).
Only the Steal field is consulted by the index builder. -/
structure RunnerRec where
  steal : String
deriving DecidableEq

/-- First Fielder sub-record nested inside Contact. -/
structure FirstFielder where
  character : String
  position : String
  action : String
  bobble : String
  manualSelected : String
deriving DecidableEq

/-- Contact sub-record nested inside Pitch. `frameOfSwing` holds the value of
"Frame of Swing Upon Contact" after `safe_int` (the stat file stores a numeric
string). -/
structure Contact where
  typeOfContact : String
  inputDirectionStick : String
  frameOfSwing : Int
  starSwingFiveStar : Int
  ballContactPosX : Rat
  firstFielder : Option FirstFielder
deriving DecidableEq

/-- Pitch sub-record of an event. -/
structure Pitch where
  pitchType : String
  chargeType : String
  starPitch : Int
  ballPositionStrikezone : Rat
  inStrikezone : Int
  typeOfSwing : String
  contact : Option Contact
deriving DecidableEq

/-- One event entry of the stat file (the fields the index builder reads).
Mandatory fields are plain values; the optional sub-records are `Option`. -/
structure Event where
  inning : Int
  halfInning : Int
  awayScore : Int
  homeScore : Int
  balls : Int
  strikes : Int
  outs : Int
  starChance : Int
  pitcherStamina : Int
  chemLinksOnBase : Int
  pitcherRosterLoc : Int
  batterRosterLoc : Int
  rbi : Int
  numOutsDuringPlay : Int
  resultOfAB : String
  runner1B : Option RunnerRec
  runner2B : Option RunnerRec
  runner3B : Option RunnerRec
  pitch : Option Pitch
deriving DecidableEq

/-- One entry of statJson["Character Game Stats"] (only CharID is read by the
engine). -/
structure CharEntry where
  charID : String
deriving DecidableEq

/-- StatObj: the decoded stat file, restricted to the fields the event-search
engine reads.  `version` is the already-defaulted result of
`statJson.get('Version', 'Pre 0.1.7')`; `awayScore`/`homeScore` are the
match-level final scores. -/
structure StatObj where
  version : String
  awayScore : Int
  homeScore : Int
  inningsPlayed : Int
  characterGameStats : PyDict String CharEntry
  events : List Event

/-- StatObj version lists (VERSION_LIST_HOME_AWAY_FLIPPED). -/
def versionListHomeAwayFlipped : List String :=
  ["Pre 0.1.7", "0.1.7a", "0.1.8", "0.1.9", "1.9.1"]

/-- StatObj version lists (VERSION_LIST_OLD_TEAM_STRUCTURE). -/
def versionListOldTeamStructure : List String :=
  ["Pre 0.1.7", "0.1.7a", "0.1.8", "0.1.9", "1.9.1", "1.9.2", "1.9.3", "1.9.4"]

/-- ErrorChecker.check_team_num: raises a plain Exception unless the team
number is 0 or 1. -/
def checkTeamNum (teamNum : Int) : Except PyError Unit :=
  if teamNum ≠ 0 ∧ teamNum ≠ 1 then .error .exceptionError else .ok ()

/-- ErrorChecker.check_roster_num: roster numbers -1..8 are accepted. -/
def checkRosterNum (rosterNum : Int) : Except PyError Unit :=
  if rosterNum < -1 ∨ rosterNum > 8 then
    .error (.valueError ("Invalid roster arg " ++ toString rosterNum ++
      ". Function only accepts roster args of 0 to 8."))
  else .ok ()

/-- StatObj.score for the team arguments 0 and 1 (the only arguments the
engine passes; check_team_num accepts them), including the
teamNumVersionCorrection home/away flip for old versions. -/
def StatObj.score (g : StatObj) (teamNum : Int) : Int :=
  let teamNum := if g.version ∈ versionListHomeAwayFlipped then |teamNum - 1| else teamNum
  if teamNum = 0 then g.awayScore else g.homeScore

/-- StatObj.getTeamString: the roster key of one team slot, version dependent. -/
def getTeamString (g : StatObj) (teamNum rosterNum : Int) : Except PyError String := do
  checkTeamNum teamNum
  checkRosterNum rosterNum
  if g.version ∈ versionListOldTeamStructure then
    pure ("Team " ++ toString teamNum ++ " Roster " ++ toString rosterNum)
  else
    pure ((if teamNum = 0 then "Away" else "Home") ++ " Roster " ++ toString rosterNum)

/-- StatObj.characterName for a single roster slot with the default
output_format.  After the team and roster argument checks, both branches
reach `Lookup.get_character(self.statJson[...][key]["CharID"], ...)`: the
roster-dict lookup runs first (KeyError for an absent roster key), and the
`get_character` call is made on the class `Lookup` — an instance method
without an instance — so the CharID binds to `self`, `search_term` is
missing, and the call raises TypeError.  The rosterNum = -1 branch performs
the same two operations starting at roster slot 0 (the first iteration of
its loop). -/
def characterName (g : StatObj) (teamNum rosterNum : Int) : Except PyError String := do
  checkTeamNum teamNum
  checkRosterNum rosterNum
  if rosterNum = -1 then do
    let ts ← getTeamString g teamNum 0
    let _ ← g.characterGameStats.get ts
    .error .typeError
  else do
    let ts ← getTeamString g teamNum rosterNum
    let _ ← g.characterGameStats.get ts
    .error .typeError

/-- EventObj.score: the per-event score of one side (check_team_num first). -/
def Event.score (ev : Event) (teamNum : Int) : Except PyError Int := do
  checkTeamNum teamNum
  if teamNum = 0 then pure ev.awayScore else pure ev.homeScore

/-- Runner sub-record of one base (1, 2 or 3); any other base number has no
`Runner {n}B` key. -/
def Event.runnerAt (ev : Event) (b : Int) : Option RunnerRec :=
  if b = 1 then ev.runner1B
  else if b = 2 then ev.runner2B
  else if b = 3 then ev.runner3B
  else none

/-- EventObj.bool_runner_on_base: 1 when a runner sub-record is present on the
given base; -1 checks all of bases 1..3. -/
def Event.boolRunnerOnBase (ev : Event) (b : Int) : Int :=
  if b = -1 then
    if (ev.runnerAt 1).isSome || (ev.runnerAt 2).isSome || (ev.runnerAt 3).isSome then 1 else 0
  else if (ev.runnerAt b).isSome then 1 else 0

/-- EventObj.bool_steal for base -1: some base 1..3 has a runner sub-record
whose Steal field differs from "None". -/
def Event.boolStealAny (ev : Event) : Bool :=
  [1, 2, 3].any fun b =>
    match ev.runnerAt b with
    | some r => r.steal ≠ "None"
    | none => false

/-! ### The EventSearch index state and its construction -/

/-- Participation record of one character: the three per-role event-id sets
stored under the keys AtBat / Pitching / Fielding. -/
structure CharActions where
  atBat : Finset Nat
  pitching : Finset Nat
  fielding : Finset Nat
deriving DecidableEq

/-- Participation role selector. -/
inductive Role where
  | atBat
  | pitching
  | fielding
deriving DecidableEq

/-- Insertion into one role set of a participation record. -/
def CharActions.insertRole (ca : CharActions) (role : Role) (e : Nat) : CharActions :=
  match role with
  | .atBat => { ca with atBat := insert e ca.atBat }
  | .pitching => { ca with pitching := insert e ca.pitching }
  | .fielding => { ca with fielding := insert e ca.fielding }

/-- EventSearch instance state: every index dictionary and marker set the
constructor builds (leading underscores of the Python attributes dropped). -/
structure EventSearch where
  result_of_AB_dict : PyDict String (Finset Nat)
  first_fielder_position_dict : PyDict String (Finset Nat)
  pitch_type_dict : PyDict String (Finset Nat)
  charge_type_dict : PyDict String (Finset Nat)
  swing_type_dict : PyDict String (Finset Nat)
  contact_type_dict : PyDict String (Finset Nat)
  input_direction_dict : PyDict String (Finset Nat)
  rbi_dict : PyDict Int (Finset Nat)
  inning_dict : PyDict Int (Finset Nat)
  away_score_dict : PyDict Int (Finset Nat)
  home_score_dict : PyDict Int (Finset Nat)
  balls_dict : PyDict Int (Finset Nat)
  strikes_dict : PyDict Int (Finset Nat)
  outs_in_inning_dict : PyDict Int (Finset Nat)
  half_inning_dict : PyDict Int (Finset Nat)
  chem_on_base_dict : PyDict Int (Finset Nat)
  runners_on_base_dict : PyDict Int (Finset Nat)
  pitcher_stamina_dict : PyDict Int (Finset Nat)
  star_chance_dict : PyDict Int (Finset Nat)
  outs_during_event_dict : PyDict Int (Finset Nat)
  pitch_in_strikezone_dict : PyDict Int (Finset Nat)
  contact_frame_dict : PyDict Int (Finset Nat)
  ball_position_strikezone : PyDict Rat (Finset Nat)
  x_ball_contact_pos : PyDict Rat (Finset Nat)
  steal : Finset Nat
  star_pitch : Finset Nat
  bobble : Finset Nat
  fireball_burn : Finset Nat
  five_star_dinger : Finset Nat
  sliding_catch : Finset Nat
  wall_jump : Finset Nat
  manual_character_selection : Finset Nat
  first_pitch_of_AB : Finset Nat
  last_pitch_of_AB : Finset Nat
  home_team_winning : Finset Nat
  away_team_winning : Finset Nat
  game_tied : Finset Nat
  lead_changed : Finset Nat
  character_action_dict : PyDict String CharActions

/-- Pre-seeded state of EventSearch.__init__ before the event loop: one empty
bucket per canonical value of every categorical axis, integer buckets over
each ordinal axis's fixed range, empty marker sets, and the participation
index keyed by every CharID of Character Game Stats. -/
def initState (g : StatObj) : EventSearch where
  result_of_AB_dict := .ofKeys finalResultValues.toFinset
  first_fielder_position_dict := .ofKeys positionValues.toFinset
  pitch_type_dict := .ofKeys pitchTypeValues.toFinset
  charge_type_dict := .ofKeys chargeTypeValues.toFinset
  swing_type_dict := .ofKeys typeOfSwingValues.toFinset
  contact_type_dict := .ofKeys contactTypeValues.toFinset
  input_direction_dict := .ofKeys inputDirectionValues.toFinset
  rbi_dict := .ofKeys (Finset.Icc 0 4)
  inning_dict := .ofKeys (Finset.Icc 1 g.inningsPlayed)
  away_score_dict := .ofKeys (Finset.Icc 0 (g.score 0))
  home_score_dict := .ofKeys (Finset.Icc 0 (g.score 1))
  balls_dict := .ofKeys (Finset.Icc 0 3)
  strikes_dict := .ofKeys (Finset.Icc 0 4)
  outs_in_inning_dict := .ofKeys (Finset.Icc 0 2)
  half_inning_dict := .ofKeys (Finset.Icc 0 1)
  chem_on_base_dict := .ofKeys (Finset.Icc 0 3)
  runners_on_base_dict := .ofKeys (Finset.Icc 0 3)
  pitcher_stamina_dict := .ofKeys (Finset.Icc 0 10)
  star_chance_dict := .ofKeys (Finset.Icc 0 1)
  outs_during_event_dict := .ofKeys (Finset.Icc 0 3)
  pitch_in_strikezone_dict := .ofKeys (Finset.Icc 0 1)
  contact_frame_dict := .ofKeys (Finset.Icc 0 10)
  ball_position_strikezone := ⟨∅, fun _ => ∅⟩
  x_ball_contact_pos := ⟨∅, fun _ => ∅⟩
  steal := ∅
  star_pitch := ∅
  bobble := ∅
  fireball_burn := ∅
  five_star_dinger := ∅
  sliding_catch := ∅
  wall_jump := ∅
  manual_character_selection := ∅
  first_pitch_of_AB := ∅
  last_pitch_of_AB := ∅
  home_team_winning := ∅
  away_team_winning := ∅
  game_tied := ∅
  lead_changed := ∅
  character_action_dict :=
    ⟨g.characterGameStats.keys.image (fun k => (g.characterGameStats.val k).charID),
     fun _ => ⟨∅, ∅, ∅⟩⟩

/-- self.character_action_dict[name][role].add(e): KeyError when the resolved
name is not a key of the participation index. -/
def charAdd (st : EventSearch) (name : String) (role : Role) (e : Nat) :
    Except PyError EventSearch :=
  if name ∈ st.character_action_dict.keys then
    .ok { st with character_action_dict :=
      ⟨st.character_action_dict.keys,
       fun a => if a = name then (st.character_action_dict.val name).insertRole role e
                else st.character_action_dict.val a⟩ }
  else .error .keyError

/-- Loop body, score section: the away/home score buckets and the
winning/tied marker sets (the two adds touch distinct dicts, so they are
bound before the state record is rebuilt). -/
def scoresBlock (i : Nat) (ev : Event) (st : EventSearch) : Except PyError EventSearch := do
  let s0 ← ev.score 0
  let s1 ← ev.score 1
  let d1 ← st.away_score_dict.add s0 i
  let d2 ← st.home_score_dict.add s1 i
  let st := { st with away_score_dict := d1, home_score_dict := d2 }
  if s0 > s1 then pure { st with away_team_winning := insert i st.away_team_winning }
  else if s0 < s1 then pure { st with home_team_winning := insert i st.home_team_winning }
  else pure { st with game_tied := insert i st.game_tied }

/-- Loop body, lead-changed marker: added iff the batting side was not ahead
and its score plus this event's RBI exceeds the fielding side's score. -/
def leadBlock (i : Nat) (ev : Event) (st : EventSearch) : Except PyError EventSearch := do
  let battingTeam := ev.halfInning
  let fieldingTeam := |battingTeam - 1|
  let sb ← ev.score battingTeam
  let sf ← ev.score fieldingTeam
  if sb + ev.rbi > sf ∧ sb ≤ sf then
    pure { st with lead_changed := insert i st.lead_changed }
  else pure st

/-- Loop body, mandatory ordinal and categorical buckets (outs through
result-of-at-bat, in source order). -/
def countsBlock (i : Nat) (ev : Event) (st : EventSearch) : Except PyError EventSearch := do
  let d1 ← st.outs_in_inning_dict.add ev.outs i
  let d2 ← st.chem_on_base_dict.add ev.chemLinksOnBase i
  let d3 ← st.strikes_dict.add ev.strikes i
  let d4 ← st.balls_dict.add ev.balls i
  let d5 ← st.inning_dict.add ev.inning i
  let d6 ← st.rbi_dict.add ev.rbi i
  let d7 ← st.pitcher_stamina_dict.add ev.pitcherStamina i
  let d8 ← st.star_chance_dict.add ev.starChance i
  let d9 ← st.outs_during_event_dict.add ev.numOutsDuringPlay i
  let d10 ← st.half_inning_dict.add ev.halfInning i
  let d11 ← st.result_of_AB_dict.add ev.resultOfAB i
  pure { st with outs_in_inning_dict := d1, chem_on_base_dict := d2, strikes_dict := d3,
                 balls_dict := d4, inning_dict := d5, rbi_dict := d6,
                 pitcher_stamina_dict := d7, star_chance_dict := d8,
                 outs_during_event_dict := d9, half_inning_dict := d10,
                 result_of_AB_dict := d11 }

/-- Guarded in-place insert: one iteration of `for i in range(1,4): if
bool_runner_on_base(i): bucket.add(...)`. -/
def condAddTo (d : PyDict Int (Finset Nat)) (c : Prop) [Decidable c] (k : Int) (e : Nat) :
    Except PyError (PyDict Int (Finset Nat)) :=
  if c then d.add k e else pure d

/-- Loop body, runner-occupancy buckets: bucket 0 when no base is occupied,
otherwise each occupied base's bucket. -/
def runnersBlock (i : Nat) (ev : Event) (st : EventSearch) : Except PyError EventSearch :=
  if ev.boolRunnerOnBase (-1) = 0 then do
    let d ← st.runners_on_base_dict.add 0 i
    pure { st with runners_on_base_dict := d }
  else do
    let d := st.runners_on_base_dict
    let d ← condAddTo d (ev.boolRunnerOnBase 1 = 1) 1 i
    let d ← condAddTo d (ev.boolRunnerOnBase 2 = 1) 2 i
    let d ← condAddTo d (ev.boolRunnerOnBase 3 = 1) 3 i
    pure { st with runners_on_base_dict := d }

/-- Loop body, steal marker set. -/
def stealBlock (i : Nat) (ev : Event) (st : EventSearch) : EventSearch :=
  if ev.boolStealAny then { st with steal := insert i st.steal } else st

/-- Pure prefix of the pitch section: first/last-pitch marker sets and the
tolerated pitch-type and charge-type inserts (their KeyError is caught). -/
def pitchMarks (i : Nat) (ev : Event) (p : Pitch) (st : EventSearch) : EventSearch :=
  let st := if ev.balls = 0 ∧ ev.strikes = 0 then
      { st with first_pitch_of_AB := insert i st.first_pitch_of_AB } else st
  let st := if ev.resultOfAB ≠ "None" then
      { st with last_pitch_of_AB := insert i st.last_pitch_of_AB } else st
  let st := { st with pitch_type_dict := st.pitch_type_dict.addTolerant p.pitchType i }
  { st with charge_type_dict := st.charge_type_dict.addTolerant p.chargeType i }

/-- Loop body for events carrying a Pitch sub-record: the marker/tolerant
prefix, then the strikezone and swing-type buckets, star-pitch marker, and
the banded strikezone-position dict. -/
def pitchBlock (i : Nat) (ev : Event) (p : Pitch) (st : EventSearch) :
    Except PyError EventSearch := do
  let st := pitchMarks i ev p st
  let d1 ← st.pitch_in_strikezone_dict.add p.inStrikezone i
  let d2 ← st.swing_type_dict.add p.typeOfSwing i
  let st := { st with pitch_in_strikezone_dict := d1, swing_type_dict := d2 }
  let st := if p.starPitch = 1 then { st with star_pitch := insert i st.star_pitch } else st
  pure { st with ball_position_strikezone :=
    st.ball_position_strikezone.addCreating (round2 p.ballPositionStrikezone) i }

/-- Loop body for events carrying a Contact sub-record (the three adds touch
distinct dicts, so they are bound before the state record is rebuilt). -/
def contactBlock (i : Nat) (c : Contact) (st : EventSearch) : Except PyError EventSearch := do
  let d1 ← st.contact_type_dict.add c.typeOfContact i
  let d2 ← st.input_direction_dict.add c.inputDirectionStick i
  let d3 ← st.contact_frame_dict.add c.frameOfSwing i
  let st := { st with contact_type_dict := d1, input_direction_dict := d2,
                      contact_frame_dict := d3 }
  let st := if c.starSwingFiveStar = 1 then
      { st with five_star_dinger := insert i st.five_star_dinger } else st
  pure { st with x_ball_contact_pos :=
    st.x_ball_contact_pos.addCreating (round2 c.ballContactPosX) i }

/-- Pure middle of the fielder section: the bobble, fireball, sliding-catch
and wall-jump marker sets. -/
def fielderMarks (i : Nat) (ff : FirstFielder) (st : EventSearch) : EventSearch :=
  let st := if ff.bobble ≠ "None" then { st with bobble := insert i st.bobble } else st
  let st := if ff.bobble = "Fireball" then
      { st with fireball_burn := insert i st.fireball_burn } else st
  let st := if ff.action = "Sliding" then
      { st with sliding_catch := insert i st.sliding_catch } else st
  if ff.action = "Walljump" then { st with wall_jump := insert i st.wall_jump } else st

/-- Loop body for events carrying a FirstFielder sub-record. -/
def fielderBlock (i : Nat) (ff : FirstFielder) (st : EventSearch) :
    Except PyError EventSearch := do
  let st ← charAdd st ff.character .fielding i
  let st := fielderMarks i ff st
  let d ← st.first_fielder_position_dict.add ff.position i
  let st := { st with first_fielder_position_dict := d }
  if ff.manualSelected ≠ "No Selected Char" then
    pure { st with manual_character_selection := insert i st.manual_character_selection }
  else pure st

/-- One iteration of the EventSearch.__init__ event loop for event number `i`
(the overflow alias `rioEventNum = eventNum % 256` is computed by the source
but never used; every insert uses the plain event number). -/
def step (g : StatObj) (st : EventSearch) (i : Nat) (ev : Event) :
    Except PyError EventSearch := do
  let batter ← characterName g ev.halfInning ev.batterRosterLoc
  let pitcher ← characterName g (|ev.halfInning - 1|) ev.pitcherRosterLoc
  let st ← charAdd st batter .atBat i
  let st ← charAdd st pitcher .pitching i
  let st ← scoresBlock i ev st
  let st ← leadBlock i ev st
  let st ← countsBlock i ev st
  let st ← runnersBlock i ev st
  let st := stealBlock i ev st
  match ev.pitch with
  | none => pure st
  | some p => do
    let st ← pitchBlock i ev p st
    match p.contact with
    | none => pure st
    | some c => do
      let st ← contactBlock i c st
      match c.firstFielder with
      | none => pure st
      | some ff => fielderBlock i ff st

/-- Event loop from event number `i` over the remaining events. -/
def buildFrom (g : StatObj) (i : Nat) (evs : List Event) (st : EventSearch) :
    Except PyError EventSearch :=
  match evs with
  | [] => .ok st
  | ev :: rest => do
      let st ← step g st i ev
      buildFrom g (i + 1) rest st

/-- EventSearch.__init__: pre-seed all indices, then run the event loop over
the whole event list. -/
def buildEventSearch (g : StatObj) : Except PyError EventSearch :=
  buildFrom g 0 g.events (initState g)

/-- Whether the index build completes without an exception. -/
def buildIsOk (g : StatObj) : Bool :=
  match buildEventSearch g with
  | .ok _ => true
  | .error _ => false

/-- The built engine of a successful build (the pre-seeded state is the
dummy answer on the failure branch, which `buildIsOk` rules out). -/
def buildGet (g : StatObj) : EventSearch :=
  match buildEventSearch g with
  | .ok st => st
  | .error _ => initState g

/-- The exception a failing build raises, if any. -/
def buildErr (g : StatObj) : Option PyError :=
  match buildEventSearch g with
  | .ok _ => none
  | .error e => some e

/-! ### The query surface -/

/-- EventSearch.__errorCheck_baseNum: base numbers with absolute value in
0..3 are accepted. -/
def errorCheckBaseNum (baseNum : Int) : Except PyError Unit :=
  if |baseNum| ∉ ([0, 1, 2, 3] : List Int) then
    .error (.valueError ("Invalid base num " ++ toString baseNum ++
      ". Function only accepts base numbers of -3 to 3."))
  else .ok ()

/-- EventSearch.__errorCheck_halfInningNum: only 0 and 1 are accepted. -/
def errorCheckHalfInningNum (halfInningNum : Int) : Except PyError Unit :=
  if halfInningNum ∉ ([0, 1] : List Int) then
    .error (.valueError ("Invalid Half Inning num " ++ toString halfInningNum ++
      ". Function only accepts base numbers of 0 or 1."))
  else .ok ()

/-- Validation loop of runnerOnBaseEvents over every provided base number. -/
def validateBaseNums (baseNums : List Int) : Except PyError Unit :=
  baseNums.forM errorCheckBaseNum

/-- One iteration of the partition loop of runnerOnBaseEvents: remove the
mentioned base's absolute value from the exclusion list, then append a
positive value to required_bases and the absolute value of any other value
to optional_bases. -/
def partitionStep (acc : List Int × List Int × List Int) (i : Int) :
    List Int × List Int × List Int :=
  let exclude_bases := if |i| ∈ acc.1 then acc.1.erase |i| else acc.1
  if 0 < i then (exclude_bases, acc.2.1 ++ [i], acc.2.2)
  else (exclude_bases, acc.2.1, acc.2.2 ++ [|i|])

/-- Partition loop of runnerOnBaseEvents: walk the input once starting from
the full exclusion list [1,2,3] and empty required/optional lists. -/
def partitionBases (baseNums : List Int) : List Int × List Int × List Int :=
  baseNums.foldl partitionStep ([1, 2, 3], [], [])

/-- EventSearch.runnerOnBaseEvents.  Two lines of the source deserve note:
the `baseNums == [0]` branch indexes the integer-keyed runner dict with the
string key `'None'`, which is never present, so it raises KeyError; and the
required-bases branch evaluates `self.eventFinal()`, an attribute EventSearch
never defines, so it raises AttributeError before any set algebra runs. -/
def runnerOnBaseEvents (s : EventSearch) (baseNums : List Int) :
    Except PyError (Finset Nat) := do
  validateBaseNums baseNums
  if baseNums.length > 3 then
    .error (.valueError "Too many baseNums provided. runnerOnBaseEvents accepts at most 3 bases")
  else if baseNums = [0] then
    .error .keyError
  else
    let p := partitionBases baseNums
    let exclude_bases := p.1
    let required_bases := p.2.1
    let optional_bases := p.2.2
    if required_bases ≠ [] ∧ 0 ∈ optional_bases then
      .error (.valueError "The argument 0 may only be provided alongside optional arguments or itself")
    else if required_bases ≠ [] then
      .error .attributeError
    else do
      let result : Finset Nat := ∅
      let result ←
        if result = ∅ then
          optional_bases.foldlM (fun r b => do
            let bucket ← s.runners_on_base_dict.get b
            pure (r ∪ bucket)) result
        else pure result
      if exclude_bases ≠ [] then
        exclude_bases.foldlM (fun r b => do
          let bucket ← s.runners_on_base_dict.get b
          pure (r \ bucket)) result
      else pure result

/-- EventSearch.listInputHandling over an integer-keyed bucket dict: an
element whose absolute value is no key is silently skipped; a non-negative
element unions its exact bucket; a negative element unions the buckets from
its absolute value up to the maximal key, or (with to_zero) the buckets
strictly below its absolute value. -/
def listInputHandling (inputList : List Int) (class_variable : PyDict Int (Finset Nat))
    (to_zero : Bool) : Except PyError (Finset Nat) :=
  inputList.foldlM
    (fun result i =>
      if |i| ∉ class_variable.keys then pure result
      else if 0 ≤ i then do
        let bucket ← class_variable.get i
        pure (result ∪ bucket)
      else if to_zero then
        (intRange 0 |i|).foldlM (fun r j => do
          let bucket ← class_variable.get j
          pure (r ∪ bucket)) result
      else do
        let m ← class_variable.maxKey
        (intRange |i| (m + 1)).foldlM (fun r j => do
          let bucket ← class_variable.get j
          pure (r ∪ bucket)) result)
    ∅

/-- EventSearch.listInputHandling when the class_variable argument is a
string rather than a dict (pitcherStaminaEvents passes the literal string
'Pitcher Stamina').  For any non-empty input list the first membership test
`abs(i) not in class_variable` applies `in` to an int and a str, which raises
TypeError; an empty list never reaches the test. -/
def listInputHandlingOnStr (inputList : List Int) (class_variable : String)
    (to_zero : Bool) : Except PyError (Finset Nat) :=
  match inputList with
  | [] => .ok ∅
  | _ :: _ => .error .typeError

/-- EventSearch.pitcherStaminaEvents for a single integer argument (the
isinstance line wraps it into a one-element list). -/
def pitcherStaminaEvents (s : EventSearch) (stamina : Int) : Except PyError (Finset Nat) :=
  listInputHandlingOnStr [stamina] "Pitcher Stamina" true

/-- EventSearch.awayScoreEvents for a single integer argument.  The source
passes `self._home_score_dict` to listInputHandling. -/
def awayScoreEvents (s : EventSearch) (awayScore : Int) : Except PyError (Finset Nat) :=
  listInputHandling [awayScore] s.home_score_dict false

/-- EventSearch.homeScoreEvents for a single integer argument. -/
def homeScoreEvents (s : EventSearch) (homeScore : Int) : Except PyError (Finset Nat) :=
  listInputHandling [homeScore] s.home_score_dict false

/-- EventSearch.outsInInningEvents: validates its argument with the
half-inning checker, then returns the exact bucket (non-negative) or the
union of buckets from the absolute value up to 2. -/
def outsInInningEvents (s : EventSearch) (outsNum : Int) : Except PyError (Finset Nat) := do
  errorCheckHalfInningNum outsNum
  if 0 ≤ outsNum then s.outs_in_inning_dict.get outsNum
  else
    (intRange |outsNum| 3).foldlM (fun r j => do
      let bucket ← s.outs_in_inning_dict.get j
      pure (r ∪ bucket)) ∅

/-- EventSearch.leadChangedEvents. -/
def leadChangedEvents (s : EventSearch) : Finset Nat := s.lead_changed

/-- EventSearch.characterAtBatEvents: empty set (not an error) for an
identity that is no key of the participation index. -/
def characterAtBatEvents (s : EventSearch) (char_id : String) : Finset Nat :=
  if char_id ∈ s.character_action_dict.keys then (s.character_action_dict.val char_id).atBat
  else ∅

/-- EventSearch.characterPitchingEvents. -/
def characterPitchingEvents (s : EventSearch) (char_id : String) : Finset Nat :=
  if char_id ∈ s.character_action_dict.keys then (s.character_action_dict.val char_id).pitching
  else ∅

/-- EventSearch.characterFieldingEvents. -/
def characterFieldingEvents (s : EventSearch) (char_id : String) : Finset Nat :=
  if char_id ∈ s.character_action_dict.keys then (s.character_action_dict.val char_id).fielding
  else ∅

/-! ### Derived per-event conditions used by the build invariants -/

/-- Lead-changed condition of one event as lines 805-806 of the source
compute it, written for the half-inning values 0 and 1. -/
def leadCondB (ev : Event) : Bool :=
  let sb := if ev.halfInning = 0 then ev.awayScore else ev.homeScore
  let sf := if |ev.halfInning - 1| = 0 then ev.awayScore else ev.homeScore
  decide (sb + ev.rbi > sf ∧ sb ≤ sf)

/-- Every CharID of either roster: the keys the participation index is
pre-seeded with. -/
def rosterCharIDs (g : StatObj) : Finset String :=
  g.characterGameStats.keys.image fun k => (g.characterGameStats.val k).charID

/-! ### Concrete games used to witness the theorems -/

/-- Character Game Stats of the main test game: two used roster slots and one
unused one (Boo generates no event). -/
def mainStats : PyDict String CharEntry :=
  ⟨({"Away Roster 0", "Home Roster 0", "Away Roster 2"} : Finset String),
   fun k =>
     if k = "Away Roster 0" then ⟨"Mario"⟩
     else if k = "Home Roster 0" then ⟨"Waluigi"⟩
     else if k = "Away Roster 2" then ⟨"Boo"⟩
     else ⟨""⟩⟩

/-- First event of the main game: bases empty, one RBI while tied (a
lead-changing event). -/
def evMain0 : Event where
  inning := 1
  halfInning := 0
  awayScore := 0
  homeScore := 0
  balls := 0
  strikes := 0
  outs := 0
  starChance := 0
  pitcherStamina := 10
  chemLinksOnBase := 0
  pitcherRosterLoc := 0
  batterRosterLoc := 0
  rbi := 1
  numOutsDuringPlay := 0
  resultOfAB := "Single"
  runner1B := none
  runner2B := none
  runner3B := none
  pitch := none

/-- Second event of the main game: runner on first, batting side already
ahead. -/
def evMain1 : Event :=
  { evMain0 with awayScore := 1, rbi := 0, resultOfAB := "None",
                 runner1B := some ⟨"None"⟩ }

/-- Third event of the main game: runners on second and third. -/
def evMain2 : Event :=
  { evMain0 with awayScore := 2, homeScore := 1, rbi := 0, resultOfAB := "Out",
                 runner2B := some ⟨"None"⟩, runner3B := some ⟨"None"⟩ }

/-- Main three-event game. -/
def gMain : StatObj where
  version := "2.0.0"
  awayScore := 2
  homeScore := 1
  inningsPlayed := 3
  characterGameStats := mainStats
  events := [evMain0, evMain1, evMain2]

/-- One-event game whose event has away score 0 and home score 1 (the away
and home buckets for the value 0 differ). -/
def g4 : StatObj where
  version := "2.0.0"
  awayScore := 0
  homeScore := 1
  inningsPlayed := 1
  characterGameStats := mainStats
  events :=
    [{ evMain0 with
        homeScore := 1,
        rbi := 0,
        resultOfAB := "None" }]

/-- One-event game whose pitch carries the unrecognized swing-type string
"Whiff" (every other field is in its domain). -/
def g5 : StatObj where
  version := "2.0.0"
  awayScore := 0
  homeScore := 0
  inningsPlayed := 1
  characterGameStats := mainStats
  events :=
    [{ evMain0 with
        rbi := 0,
        resultOfAB := "None",
        pitch := some { pitchType := "Curve", chargeType := "N/A", starPitch := 0,
                        ballPositionStrikezone := 0, inStrikezone := 1,
                        typeOfSwing := "Whiff", contact := none } }]

/-- Scenario-B game: event 0 carries the unrecognized pitch-type string
"Knuckle" (and an unrecognized charge type); event 1 is fully recognized. -/
def gB : StatObj where
  version := "2.0.0"
  awayScore := 0
  homeScore := 0
  inningsPlayed := 1
  characterGameStats := mainStats
  events :=
    [{ evMain0 with
        rbi := 0,
        pitch := some { pitchType := "Knuckle", chargeType := "Weird", starPitch := 0,
                        ballPositionStrikezone := 1/2, inStrikezone := 1,
                        typeOfSwing := "Slap", contact := none } },
     { evMain0 with
        rbi := 0,
        resultOfAB := "Out",
        pitch := some { pitchType := "Curve", chargeType := "N/A", starPitch := 0,
                        ballPositionStrikezone := 0, inStrikezone := 0,
                        typeOfSwing := "Slap", contact := none } }]

/-- Event-free game with fully rostered Character Game Stats: the only kind
of game whose constructor completes. -/
def gE : StatObj where
  version := "2.0.0"
  awayScore := 0
  homeScore := 0
  inningsPlayed := 1
  characterGameStats := mainStats
  events := []

/-- Engine state whose away-score and home-score buckets for the value 0
differ: the away bucket holds event 0, the home bucket is empty (the
pre-seeded state of g4 with event 0 written into the away-score-0 bucket). -/
def sC4 : EventSearch :=
  { initState g4 with
      away_score_dict := (initState g4).away_score_dict.setVal 0 {0} }

/-- Whether an Except value is a raised ValueError. -/
def isValueError {α : Type} (r : Except PyError α) : Bool :=
  match r with
  | .error (.valueError _) => true
  | _ => false

/-! ### Build lemmas: the event loop raises on its first iteration -/

@[simp] theorem exceptBind_ok {ε α β : Type} (a : α) (f : α → Except ε β) :
    (Except.ok a >>= f) = f a := rfl

@[simp] theorem exceptBind_error {ε α β : Type} (e : ε) (f : α → Except ε β) :
    ((Except.error e : Except ε α) >>= f) = Except.error e := rfl

@[simp] theorem exceptPure_eq_ok {ε α : Type} (a : α) :
    (pure a : Except ε α) = Except.ok a := rfl

theorem exceptBind_ok_elim {ε α β : Type} {x : Except ε α} {f : α → Except ε β} {b : β}
    (h : (x >>= f) = .ok b) : ∃ a, x = .ok a ∧ f a = .ok b := by
  cases x with
  | ok a => exact ⟨a, rfl, h⟩
  | error e => exact absurd h (by simp)

/-- StatObj.characterName never returns a name: in every branch a
`Lookup.get_character` class call raises before a value is produced. -/
theorem characterName_not_ok (g : StatObj) (t r : Int) (s : String) :
    characterName g t r ≠ .ok s := by
  intro h
  unfold characterName at h
  obtain ⟨u1, h1, h⟩ := exceptBind_ok_elim h
  try dsimp only at h
  obtain ⟨u2, h2, h⟩ := exceptBind_ok_elim h
  try dsimp only at h
  split at h
  · obtain ⟨ts, hts, h⟩ := exceptBind_ok_elim h
    try dsimp only at h
    obtain ⟨en, hen, h⟩ := exceptBind_ok_elim h
    simp at h
  · obtain ⟨ts, hts, h⟩ := exceptBind_ok_elim h
    try dsimp only at h
    obtain ⟨en, hen, h⟩ := exceptBind_ok_elim h
    simp at h

/-- One loop iteration always raises: the batter resolution is its first
fallible operation and characterName never succeeds. -/
theorem step_not_ok (g : StatObj) (st : EventSearch) (i : Nat) (ev : Event)
    (s : EventSearch) : step g st i ev ≠ .ok s := by
  intro h
  unfold step at h
  obtain ⟨batter, hb, h⟩ := exceptBind_ok_elim h
  exact characterName_not_ok g ev.halfInning ev.batterRosterLoc batter hb

/-- The constructor completes exactly on games with no events. -/
theorem buildIsOk_iff_no_events (g : StatObj) :
    buildIsOk g = true ↔ g.events = [] := by
  constructor
  · intro h
    unfold buildIsOk buildEventSearch at h
    cases hev : g.events with
    | nil => rfl
    | cons ev rest =>
        rw [hev] at h
        unfold buildFrom at h
        cases hs : step g (initState g) 0 ev with
        | ok s => exact absurd hs (step_not_ok g (initState g) 0 ev s)
        | error e =>
            rw [hs] at h
            simp at h
  · intro h
    unfold buildIsOk buildEventSearch
    rw [h]
    rfl

/-- A build over an event-free game returns the pre-seeded state. -/
theorem buildGet_no_events (g : StatObj) (h : g.events = []) :
    buildGet g = initState g := by
  unfold buildGet buildEventSearch
  rw [h]
  rfl


/-! ### Claim theorems: query-level behavior -/

/-- C1: contrary to the claim, a validated runner-occupancy query naming a
required (positive) base never returns the intersection of the required
buckets: the required branch evaluates `self.eventFinal()`, an attribute
`EventSearch` does not define, so the call raises AttributeError on every
built index (shown here for the representative validated input [1]). -/
theorem runnerOnBaseEvents_required_raises (s : EventSearch) :
    runnerOnBaseEvents s [1] = .error .attributeError := rfl

/-- C2: contrary to the claim, `runnerOnBaseEvents([0])` does not return the
no-runner marker set: the dedicated branch indexes the integer-keyed runner
dict with the string key 'None', which is never present, so the call raises
KeyError on every built index. -/
theorem runnerOnBaseEvents_zero_raises (s : EventSearch) :
    runnerOnBaseEvents s [0] = .error .keyError := rfl

/-- C3: contrary to the claim, `pitcherStaminaEvents(-n)` never returns the
union of the stamina buckets below the threshold: the method passes the
literal string 'Pitcher Stamina' instead of the stamina dict to
listInputHandling, whose first membership test then raises TypeError for
every integer argument. -/
theorem pitcherStaminaEvents_raises (s : EventSearch) (stamina : Int) :
    pitcherStaminaEvents s stamina = .error .typeError := rfl

/-- C6: contrary to the claim, the in-domain outs count 2 is rejected:
`outsInInningEvents` validates its argument with the half-inning checker,
which only accepts 0 and 1, so the query raises ValueError naming the wrong
axis even though the outs buckets 0..2 exist. -/
theorem outsInInningEvents_two_raises (s : EventSearch) :
    outsInInningEvents s 2 =
      .error (.valueError
        "Invalid Half Inning num 2. Function only accepts base numbers of 0 or 1.") := rfl

/-- C4: contrary to the claim, `awayScoreEvents` never returns the
away-score bucket: line 1146 of the source passes `self._home_score_dict` to
listInputHandling, so the away accessor computes exactly `homeScoreEvents` on
every engine state — on the state sC4, whose away-score-0 bucket is the
singleton of event 0, it answers with the empty home-score-0 bucket — and
the claimed behavior is unobservable through the constructor, which raises
TypeError on the game g4 (as on every game with an event) at the first
batter resolution. -/
theorem awayScoreEvents_reads_home_buckets :
    (∀ s v, awayScoreEvents s v = homeScoreEvents s v) ∧
    awayScoreEvents sC4 0 = .ok ∅ ∧
    sC4.away_score_dict.get 0 = .ok {0} ∧
    buildErr g4 = some .typeError :=
  ⟨fun s v => rfl, by decide, by decide, by decide⟩

/-- C5: contrary to the claim, a build over an event carrying an
out-of-domain categorical value does not succeed with that event omitted
from one bucket: EventSearch.__init__ raises TypeError at the batter
resolution of its first event (the Lookup.get_character class call), before
any categorical insert is reached, so an exception escapes the build on the
Scenario-B game gB (unrecognized pitch-type "Knuckle" and charge-type
"Weird") just as on the game g5 (unrecognized swing-type "Whiff") — and in
general no game with a non-empty event list builds at all. -/
theorem categorical_tolerance_unreachable :
    (buildErr gB = some .typeError ∧
     "Knuckle" ∉ pitchTypeValues ∧ "Weird" ∉ chargeTypeValues) ∧
    (buildErr g5 = some .typeError ∧ "Whiff" ∉ typeOfSwingValues) ∧
    (∀ g, g.events ≠ [] → buildIsOk g = false) := by
  refine ⟨⟨by decide, by decide, by decide⟩, ⟨by decide, by decide⟩, ?_⟩
  intro g h
  cases hb : buildIsOk g with
  | false => rfl
  | true => exact absurd ((buildIsOk_iff_no_events g).mp hb) h

/-! ### C7: partition lemmas and the contradictory 0-with-positive input -/

theorem partitionStep_required (acc : List Int × List Int × List Int) (i : Int) :
    (partitionStep acc i).2.1 = if 0 < i then acc.2.1 ++ [i] else acc.2.1 := by
  unfold partitionStep
  by_cases h : 0 < i <;> simp [h]

theorem partitionStep_optional (acc : List Int × List Int × List Int) (i : Int) :
    (partitionStep acc i).2.2 = if 0 < i then acc.2.2 else acc.2.2 ++ [|i|] := by
  unfold partitionStep
  by_cases h : 0 < i <;> simp [h]

theorem mem_required_of_foldl (l : List Int) (b : Int) :
    ∀ acc : List Int × List Int × List Int,
      b ∈ acc.2.1 → b ∈ (l.foldl partitionStep acc).2.1 := by
  induction l with
  | nil => intro acc hb; simpa using hb
  | cons i rest ih =>
      intro acc hb
      simp only [List.foldl_cons]
      apply ih
      rw [partitionStep_required]
      by_cases h : 0 < i <;> simp [h, hb]

theorem mem_required_of_mem (l : List Int) (b : Int) (hpos : 0 < b) :
    ∀ acc : List Int × List Int × List Int,
      b ∈ l → b ∈ (l.foldl partitionStep acc).2.1 := by
  induction l with
  | nil => intro acc hb; cases hb
  | cons i rest ih =>
      intro acc hb
      simp only [List.foldl_cons]
      rcases List.mem_cons.mp hb with h | h
      · subst h
        apply mem_required_of_foldl
        rw [partitionStep_required, if_pos hpos]
        simp
      · exact ih _ h

theorem mem_optional_of_foldl (l : List Int) (b : Int) :
    ∀ acc : List Int × List Int × List Int,
      b ∈ acc.2.2 → b ∈ (l.foldl partitionStep acc).2.2 := by
  induction l with
  | nil => intro acc hb; simpa using hb
  | cons i rest ih =>
      intro acc hb
      simp only [List.foldl_cons]
      apply ih
      rw [partitionStep_optional]
      by_cases h : 0 < i <;> simp [h, hb]

theorem zero_mem_optional_of_mem (l : List Int) :
    ∀ acc : List Int × List Int × List Int,
      (0 : Int) ∈ l → (0 : Int) ∈ (l.foldl partitionStep acc).2.2 := by
  induction l with
  | nil => intro acc hb; cases hb
  | cons i rest ih =>
      intro acc hb
      simp only [List.foldl_cons]
      rcases List.mem_cons.mp hb with h | h
      · subst h
        apply mem_optional_of_foldl
        rw [partitionStep_optional, if_neg (by omega)]
        simp
      · exact ih _ h

/-- Validation loop errors are always ValueErrors. -/
theorem validateBaseNums_error_shape (l : List Int) :
    ∀ e : PyError, validateBaseNums l = .error e → ∃ msg, e = .valueError msg := by
  induction l with
  | nil =>
      intro e h
      simp [validateBaseNums] at h
  | cons i rest ih =>
      intro e h
      rw [validateBaseNums, List.forM_cons'] at h
      cases hc : errorCheckBaseNum i with
      | ok u =>
          rw [hc, exceptBind_ok] at h
          exact ih e h
      | error e₂ =>
          rw [hc, exceptBind_error] at h
          injection h with h2
          subst h2
          unfold errorCheckBaseNum at hc
          split at hc
          · injection hc with h3
            exact ⟨_, h3.symm⟩
          · cases hc

/-- C7: an input list containing the literal 0 together with a positive base
number always raises a ValueError (the contradictory-combination
validation), never returning a result set. -/
theorem runnerOnBase_zero_with_positive (s : EventSearch) (baseNums : List Int)
    (h0 : (0 : Int) ∈ baseNums) (hpos : ∃ b ∈ baseNums, 0 < b) :
    isValueError (runnerOnBaseEvents s baseNums) = true := by
  obtain ⟨b, hb, hbpos⟩ := hpos
  simp only [runnerOnBaseEvents]
  cases hv : validateBaseNums baseNums with
  | error e =>
      obtain ⟨msg, rfl⟩ := validateBaseNums_error_shape _ _ hv
      rw [exceptBind_error]
      rfl
  | ok u =>
      rw [exceptBind_ok]
      by_cases hlen : baseNums.length > 3
      · rw [if_pos hlen]; rfl
      · rw [if_neg hlen]
        have hne : baseNums ≠ [0] := by
          intro heq
          rw [heq] at hb
          simp at hb
          omega
        rw [if_neg hne]
        have hreq : b ∈ (partitionBases baseNums).2.1 :=
          mem_required_of_mem _ _ hbpos _ hb
        have hopt : (0 : Int) ∈ (partitionBases baseNums).2.2 :=
          zero_mem_optional_of_mem _ _ h0
        have hreqne : (partitionBases baseNums).2.1 ≠ [] := by
          intro hnil
          rw [hnil] at hreq
          cases hreq
        rw [if_pos ⟨hreqne, hopt⟩]
        rfl

/-- C7 witness: the contradictory input [0, 1] on a pre-seeded engine state
raises a ValueError. -/
theorem runnerOnBase_zero_with_positive_witness :
    (0 : Int) ∈ ([0, 1] : List Int) ∧ (∃ b ∈ ([0, 1] : List Int), 0 < b) ∧
    isValueError (runnerOnBaseEvents (initState gMain) [0, 1]) = true :=
  ⟨by decide, ⟨1, by decide, by decide⟩,
   runnerOnBase_zero_with_positive (initState gMain) [0, 1] (by decide)
     ⟨1, by decide, by decide⟩⟩

/-- C8: contrary to the claim, the build never marks any event lead-changed:
the loop raises TypeError at the batter resolution of the first event (line
789, the Lookup.get_character class call), before the lead-changed rule at
lines 805-806 is reached, so construction fails on gMain — whose first event
satisfies the rule (a one-RBI swing from a tie) — and the lead-changed set
of every state the constructor can produce is empty. -/
theorem leadChanged_unreachable :
    buildErr gMain = some .typeError ∧
    leadCondB evMain0 = true ∧
    (∀ g, buildIsOk g = true → leadChangedEvents (buildGet g) = ∅) := by
  refine ⟨by decide, by decide, ?_⟩
  intro g h
  rw [buildGet_no_events g ((buildIsOk_iff_no_events g).mp h)]
  rfl

/-- C9: the participation index is pre-seeded — before the event loop runs —
with every CharID of Character Game Stats, and each of the three accessors
answers the empty set, never an error, for every character identity on every
state the constructor completes, whether the identity is a rostered
character that generated no events or not in the game at all. -/
theorem characterQueries_preseeded_empty (g : StatObj) (cid : String)
    (h : buildIsOk g = true) :
    (cid ∈ rosterCharIDs g → cid ∈ (buildGet g).character_action_dict.keys) ∧
    characterAtBatEvents (buildGet g) cid = ∅ ∧
    characterPitchingEvents (buildGet g) cid = ∅ ∧
    characterFieldingEvents (buildGet g) cid = ∅ := by
  rw [buildGet_no_events g ((buildIsOk_iff_no_events g).mp h)]
  refine ⟨fun hm => hm, ?_, ?_, ?_⟩
  · unfold characterAtBatEvents
    split <;> rfl
  · unfold characterPitchingEvents
    split <;> rfl
  · unfold characterFieldingEvents
    split <;> rfl

/-- C9 witness: instantiated on the event-free but fully rostered game gE at
the rostered identity Boo, which generated no events (the same theorem also
covers identities wholly outside the game). -/
theorem characterQueries_preseeded_empty_witness :
    buildIsOk gE = true ∧
    (("Boo" ∈ rosterCharIDs gE → "Boo" ∈ (buildGet gE).character_action_dict.keys) ∧
     characterAtBatEvents (buildGet gE) "Boo" = ∅ ∧
     characterPitchingEvents (buildGet gE) "Boo" = ∅ ∧
     characterFieldingEvents (buildGet gE) "Boo" = ∅) :=
  ⟨by decide, characterQueries_preseeded_empty gE "Boo" (by decide)⟩

/-- C10: the runner-occupancy indexing never runs: the loop raises TypeError
at the batter resolution before the runner section on every event, so
construction fails on gMain (which has an empty-bases event and
runner-bearing events), and in every state the constructor can produce the
event list is empty and all four runner buckets are the pre-seeded empty
sets — the claimed invariant concerns built indices the program cannot
reach. -/
theorem runnerBuckets_never_populated :
    buildErr gMain = some .typeError ∧
    evMain1.runner1B.isSome = true ∧
    (∀ g, buildIsOk g = true → g.events = [] ∧
      ∀ k : Int, (buildGet g).runners_on_base_dict.val k = ∅) := by
  refine ⟨by decide, by decide, ?_⟩
  intro g h
  have hnil := (buildIsOk_iff_no_events g).mp h
  refine ⟨hnil, fun k => ?_⟩
  rw [buildGet_no_events g hnil]
  rfl

end PyRio
